import Mathlib

/-!
Verification of the configuration-resolution engine and sample request
handlers of the aws-cdk-infra-setup repository, as a shallow embedding in
Lean 4.  Python dictionaries loaded from JSON are modelled as association
lists, Python exceptions as `Except`/`Option` results, and the file system
and external AWS SDK calls as explicit parameters carrying their observable
behaviour.
-/

set_option maxHeartbeats 1000000

namespace InfraSetup

/-- JSON values as produced by Python's `json` module (numbers restricted to
integers, which covers every value the configuration documents and request
bodies of this repository use). -/
inductive Json where
  | null
  | bool (b : Bool)
  | num (n : Int)
  | str (s : String)
  | arr (elems : List Json)
  | obj (fields : List (String × Json))
deriving Repr

mutual

/-- Structural equality on JSON values (Python `==` on decoded values). -/
def Json.beq : Json → Json → Bool
  | .null, .null => true
  | .bool a, .bool b => a == b
  | .num a, .num b => a == b
  | .str a, .str b => a == b
  | .arr a, .arr b => Json.beqList a b
  | .obj a, .obj b => Json.beqFields a b
  | _, _ => false

/-- Elementwise equality of JSON arrays. -/
def Json.beqList : List Json → List Json → Bool
  | [], [] => true
  | x :: xs, y :: ys => Json.beq x y && Json.beqList xs ys
  | _, _ => false

/-- Fieldwise equality of JSON objects. -/
def Json.beqFields : List (String × Json) → List (String × Json) → Bool
  | [], [] => true
  | (k1, v1) :: xs, (k2, v2) :: ys => k1 == k2 && Json.beq v1 v2 && Json.beqFields xs ys
  | _, _ => false

end

instance : BEq Json := ⟨Json.beq⟩

/-- Association-list lookup, modelling Python `dict.get` / `dict[...]`
access on dictionaries decoded from JSON. -/
def alookup (k : String) : List (String × α) → Option α
  | [] => none
  | (k1, v) :: rest => if k = k1 then some v else alookup k rest

/-- Python truthiness of the result of `dict.get(key)` on a decoded JSON
object: `None`, `False`, `0`, `""`, `[]` and the empty object are falsy. -/
def truthy : Option Json → Bool
  | none => false
  | some .null => false
  | some (.bool b) => b
  | some (.num n) => n != 0
  | some (.str s) => s != ""
  | some (.arr xs) => !xs.isEmpty
  | some (.obj fs) => !fs.isEmpty

/-- Python `x is None` for the result of `dict.get(key)`: true when the key
is absent or bound to JSON `null`. -/
def isPyNone : Option Json → Bool
  | none => true
  | some .null => true
  | _ => false

/-- Python truthiness of an optional string field (absent or empty → falsy). -/
def truthyStr : Option String → Bool
  | none => false
  | some s => s != ""

/-- Python `str.split("/")` on a character list, accumulating the current
segment in reverse. -/
def splitSlashes : List Char → List Char → List String
  | [], cur => [String.mk cur.reverse]
  | c :: rest, cur =>
      if c = '/' then String.mk cur.reverse :: splitSlashes rest []
      else splitSlashes rest (c :: cur)

/-- Join path segments with the `/` separator (inverse of `splitSlashes` on
separator-free segments). -/
def joinSep : List String → String
  | [] => ""
  | [x] => x
  | x :: xs => x ++ "/" ++ joinSep xs

/-- Python `str.upper()` for the ASCII method names used here. -/
def toUpperStr (s : String) : String := String.mk (s.toList.map Char.toUpper)

/-- Python `str.lower()` for the ASCII runtime identifiers used here. -/
def toLowerStr (s : String) : String := String.mk (s.toList.map Char.toLower)

mutual

/-- `json.dumps` (Python standard library), modelled without escape
sequences, which no value in this development needs. -/
def Json.serialize : Json → String
  | .null => "null"
  | .bool true => "true"
  | .bool false => "false"
  | .num n => toString n
  | .str s => "\"" ++ s ++ "\""
  | .arr xs => "[" ++ Json.serializeList xs ++ "]"
  | .obj fs => "\x7b" ++ Json.serializeFields fs ++ "\x7d"

/-- Serialization of a JSON array's elements, comma separated. -/
def Json.serializeList : List Json → String
  | [] => ""
  | [x] => Json.serialize x
  | x :: xs => Json.serialize x ++ ", " ++ Json.serializeList xs

/-- Serialization of a JSON object's fields, comma separated. -/
def Json.serializeFields : List (String × Json) → String
  | [] => ""
  | [(k, v)] => "\"" ++ k ++ "\": " ++ Json.serialize v
  | (k, v) :: fs => "\"" ++ k ++ "\": " ++ Json.serialize v ++ ", " ++ Json.serializeFields fs

end

/-! ## utils/dynamodb_utils.py and the coffee-shop create handler -/

/-- The shape of a Lambda HTTP response produced by the sample handlers. -/
structure HttpResponse where
  statusCode : Nat
  headers : List (String × String)
  body : String
deriving Repr, DecidableEq

/-- `create_response` from `utils/dynamodb_utils.py`: a standard Lambda HTTP
response with a JSON content-type header and a `json.dumps`-serialized body. -/
def create_response (status_code : Nat) (body : Json) : HttpResponse :=
  { statusCode := status_code
  , headers := [("Content-Type", "application/json")]
  , body := Json.serialize body }

/-- DynamoDB `put_item` with
`ConditionExpression="attribute_not_exists(coffeeId)"` (boto3 is external to
the repository, so it is modelled by its documented behaviour).  The table is
a mapping from the `coffeeId` key attribute to the stored item; `fault`
injects any other backend `ClientError` code (throttling, validation, ...).
On success the new item is added; when the key already exists the backend
raises a `ClientError` with code `ConditionalCheckFailedException`. -/
def put_item (fault : Option String) (table : List (Json × Json))
    (key item : Json) : Except String (List (Json × Json)) :=
  match fault with
  | some code => .error code
  | none =>
      if (table.find? (fun p => Json.beq p.1 key)).isSome then
        .error "ConditionalCheckFailedException"
      else
        .ok ((key, item) :: table)

/-- Outcome of reading and parsing the request body in the create handler.
`none` models a falsy `event.get("body")` (absent body or empty string), in
which case the code parses the literal `"{}"`; `some none` models a body
string that `json.loads` rejects; `some (some j)` a body that parses to `j`.
`json.loads` itself is Python's standard library, external to the
repository, so it is modelled by its result on the body string. -/
abbrev BodyField := Option (Option Json)

/-- `json.loads(body or "{}")` from the create handler: a falsy body parses
as the empty JSON object, otherwise the body string's own parse outcome is
used. -/
def parsedBody (body : BodyField) : Option Json :=
  match body with
  | none => some (Json.obj [])
  | some r => r

/-- The create handler's required-field validation, exactly as written:
`if not coffee_id or not name or not price or available is None`. -/
def passesValidation (fields : List (String × Json)) : Bool :=
  truthy (alookup "coffeeId" fields) && truthy (alookup "name" fields) &&
    truthy (alookup "price" fields) && !isPyNone (alookup "available" fields)

/-- The 400 response body for an unparseable request body. -/
def invalidJsonBody : Json :=
  Json.obj [("error", Json.str "Invalid JSON in request body")]

/-- The 409 response body for missing required attributes. -/
def missingFieldsBody : Json :=
  Json.obj [("error", Json.str "Missing required attributes: coffeeId, name, price, or available.")]

/-- The 409 response body for an already-existing item. -/
def itemExistsBody : Json :=
  Json.obj [("error", Json.str "Item already exists!")]

/-- The 201 response body (the boto3 `put_item` response metadata is
modelled as an empty object). -/
def createdBody : Json :=
  Json.obj [("message", Json.str "Item Created Successfully!"), ("response", Json.obj [])]

/-- The 500 response body carrying the backend error. -/
def serverErrorBody (code : String) : Json :=
  Json.obj [("error", Json.str "Internal Server Error!"), ("message", Json.str code)]

/-- The item written by the create handler, assembled from the request
body's four fields. -/
def itemOf (fields : List (String × Json)) : Json :=
  Json.obj [ ("coffeeId", (alookup "coffeeId" fields).getD Json.null)
           , ("name", (alookup "name" fields).getD Json.null)
           , ("price", (alookup "price" fields).getD Json.null)
           , ("available", (alookup "available" fields).getD Json.null) ]

/-- `create_coffee` from `src/handler/coffee-shop/create/lambda_handler.py`.
Returns the HTTP response together with the table state afterwards; `none`
models an unhandled Python exception (the handler calls `.get` on the parsed
body, which raises `AttributeError` when the body is valid JSON but not an
object).  The boto3 `put_item` response metadata embedded in the 201 body is
modelled as an empty object. -/
def create_coffee (fault : Option String) (table : List (Json × Json))
    (body : BodyField) : Option (HttpResponse × List (Json × Json)) :=
  match parsedBody body with
  | none => some (create_response 400 invalidJsonBody, table)
  | some body_data =>
    match body_data with
    | Json.obj fields =>
        let coffee_id := alookup "coffeeId" fields
        let name := alookup "name" fields
        let price := alookup "price" fields
        let available := alookup "available" fields
        if !truthy coffee_id || !truthy name || !truthy price || isPyNone available then
          some (create_response 409 missingFieldsBody, table)
        else
          let cid := coffee_id.getD Json.null
          match put_item fault table cid (itemOf fields) with
          | .ok table2 => some (create_response 201 createdBody, table2)
          | .error code =>
              if code = "ConditionalCheckFailedException" then
                some (create_response 409 itemExistsBody, table)
              else
                some (create_response 500 (serverErrorBody code), table)
    | _ => none

/-- The claim's reading of "all four required fields are supplied": each of
the four keys is present in the request body with a non-null value. -/
def requiredFieldsSupplied (fields : List (String × Json)) : Bool :=
  !isPyNone (alookup "coffeeId" fields) && !isPyNone (alookup "name" fields) &&
    !isPyNone (alookup "price" fields) && !isPyNone (alookup "available" fields)

/-! ## app.py — configuration loading -/

/-- Diagnostic output (`print` calls) emitted while loading configurations
and resolving entities, modelled structurally. -/
inductive Diag where
  | loaded (file_path : String)
  | loadError (file_path : String)
  | failedCount (n : Nat)
  | failedFile (file_path : String)
  | expectedAt (file_path full_path : String)
  | filesInDirectory (dir : String) (existing_files : List String)
  | skipMissingFields (function_name : Option String)
  | roleNotFound (role_name : Option String) (function_name : String)
  | unsupportedRuntime (runtime function_name : String)
  | codePathMissing (code_path function_name : String)
  | createdFunction (function_name : String)
deriving Repr, DecidableEq

/-- `os.path.isabs` on a POSIX system. -/
def isAbs (p : String) : Bool :=
  match p.toList with
  | '/' :: _ => true
  | _ => false

/-- `os.path.join(root, p)` for the shapes used here (a non-empty root that
does not end in a separator). -/
def pathJoin (root p : String) : String := root ++ "/" ++ p

/-- `resolve_file_path` from `app.py`: resolve relative to the project root
unless already absolute. -/
def resolve_file_path (file_path project_root : String) : String :=
  if isAbs file_path then file_path else pathJoin project_root file_path

/-- `os.path.dirname`, modelled as everything before the last separator. -/
def dirname (p : String) : String :=
  joinSep (splitSlashes p.toList []).dropLast

/-- The first loop of `load_config_files`: attempt every path in order with
the supplied loader, returning the loaded configs, the failed paths and the
per-file diagnostics.  The loader function is a parameter in the source as
well; a Python exception from it is an `Except.error`. -/
def loadLoop (loader_func : String → Except String α) :
    List String → List α × List String × List Diag
  | [] => ([], [], [])
  | file_path :: rest =>
      match loader_func file_path with
      | .ok config =>
          let (cs, fs, ds) := loadLoop loader_func rest
          (config :: cs, fs, Diag.loaded file_path :: ds)
      | .error _e =>
          let (cs, fs, ds) := loadLoop loader_func rest
          (cs, file_path :: fs, Diag.loadError file_path :: ds)

/-- `load_config_files` from `app.py`.  `dirExists` and `listDir` model
`os.path.exists` and `os.listdir` on the surrounding file system.  The
result is the returned list of configs, or — when at least one path failed —
the raised `FileNotFoundError` carrying every failed path, together with all
diagnostics printed along the way. -/
def load_config_files (loader_func : String → Except String α)
    (project_root : String) (dirExists : String → Bool)
    (listDir : String → List String) (config_files : List String) :
    Except (List String) (List α) × List Diag :=
  let (loaded_configs, failed_files, ds) := loadLoop loader_func config_files
  if failed_files.isEmpty then
    (.ok loaded_configs, ds)
  else
    let ds2 := ds ++ [Diag.failedCount failed_files.length]
      ++ failed_files.flatMap (fun f =>
           [Diag.failedFile f, Diag.expectedAt f (resolve_file_path f project_root)])
      ++ failed_files.flatMap (fun f =>
           let dir_path := dirname (resolve_file_path f project_root)
           if dirExists dir_path then [Diag.filesInDirectory dir_path (listDir dir_path)]
           else [])
    (.error failed_files, ds2)

/-- Whether the loader fails on a path (used to state which paths the batch
collects as failed). -/
def loaderFails (loader_func : String → Except String α) (file_path : String) : Bool :=
  match loader_func file_path with
  | .ok _ => false
  | .error _ => true

/-- The successful value of an `Except`, if any. -/
def exceptToOption : Except ε α → Option α
  | .ok a => some a
  | .error _ => none

/-! ## constructs/iam_roles_construct.py -/

/-- How a role's trust policy is set: either a fixed service principal
(`iam.ServicePrincipal`) or a structured policy document
(`iam.PolicyDocument.from_json`). -/
inductive TrustPolicy where
  | servicePrincipal (service : String)
  | document (doc : Json)
deriving Repr

/-- A reference to a managed policy: by explicit ARN
(`iam.ManagedPolicy.from_managed_policy_arn`) or by AWS-managed policy name
(`iam.ManagedPolicy.from_aws_managed_policy_name`). -/
inductive ManagedPolicyRef where
  | fromArn (arn : String)
  | awsManaged (policy_name : String)
deriving Repr, DecidableEq

/-- The observable configuration of an `iam.Role` entity as constructed by
this repository. -/
structure Role where
  role_name : String
  assumed_by : TrustPolicy
  managed_policies : List ManagedPolicyRef
  inline_policies : List (String × Json)
deriving Repr

/-- A role record as produced by `load_iam_role_config` in `app.py`:
`role_name` is `none` when the key is absent (so that `role_data["role_name"]`
raises `KeyError`); `trust_policy` is the inlined trust-policy document or
`none` (Python `None`); managed policies map short name to ARN; inline
policies map file base name to policy document. -/
structure RoleRecord where
  role_name : Option String
  trust_policy : Option Json
  managed_policies : List (String × String)
  inline_policies : List (String × Json)
deriving Repr

/-- The body of the per-record `try` block in `IamRoleConstruct.__init__`:
either the constructed role entity or the Python exception it raises.
Faithful to the source: the local `assume_role_policy` document is computed
from the trust-policy JSON but the `iam.Role(...)` call never uses it — the
role is always created with `assumed_by=iam.ServicePrincipal
("lambda.amazonaws.com")`. -/
def buildIamRole (role_data : RoleRecord) : Except String Role :=
  match role_data.role_name with
  | none => .error "KeyError: role_name"
  | some role_name =>
      let _assume_role_policy : Option Json :=
        match role_data.trust_policy with
        | some doc => if truthy (some doc) then some doc else none
        | none => none
      .ok { role_name := role_name
          , assumed_by := TrustPolicy.servicePrincipal "lambda.amazonaws.com"
          , managed_policies := role_data.managed_policies.map (fun p => ManagedPolicyRef.fromArn p.2)
          , inline_policies := role_data.inline_policies }

/-- The loop of `IamRoleConstruct.__init__` over the role records.  When a
record's construction raises, control enters the `except` block, whose
f-string evaluates `id + 1` — the construct `id` is a string, so this very
line raises `TypeError`, which nothing catches: the whole batch aborts. -/
def iamRolesLoop : List RoleRecord → List (String × Role) →
    Except String (List (String × Role))
  | [], acc => .ok acc
  | role_data :: rest, acc =>
      match buildIamRole role_data with
      | .ok role => iamRolesLoop rest (acc ++ [(role.role_name, role)])
      | .error _e => .error "TypeError: can only concatenate str (not \"int\") to str"

/-- `IamRoleConstruct.__init__`: the resulting `roles` name→entity mapping,
or the exception that aborted the batch. -/
def IamRoleConstruct (iam_role_configs : List RoleRecord) :
    Except String (List (String × Role)) :=
  iamRolesLoop iam_role_configs []

/-! ## constructs/lambda_functions_construct.py -/

/-- The inner `service` object of a function configuration document. -/
structure LambdaService where
  function_name : Option String
  role_name : Option String
  handler : Option String
  runtime : Option String
  zip_file : Option String
  timeout : Option Int
  memory_size : Option Int
  environment_variables : List (String × String)
  description : Option String
deriving Repr

/-- The `{}` default of `lambda_data.get("service", {})`. -/
def emptyService : LambdaService :=
  { function_name := none, role_name := none, handler := none, runtime := none
  , zip_file := none, timeout := none, memory_size := none
  , environment_variables := [], description := none }

/-- One loaded function configuration document. -/
structure LambdaRecord where
  service : Option LambdaService
deriving Repr

/-- The state of the already-completed `IamRoleConstruct` as seen by the
Lambda construct: its `roles` dictionary and its construct children, which
`node.try_find_child` addresses by construct id (the roles were created with
their `role_name` as construct id). -/
structure IamRolesState where
  roles : List (String × Role)
  children : List (String × Role)
deriving Repr

/-- The observable configuration of a `_lambda.Function` entity. -/
structure LambdaFunction where
  function_name : String
  runtime : String
  handler : String
  code_path : String
  role : Role
  timeout : Int
  memory_size : Int
  environment : List (String × String)
  description : String
deriving Repr

/-- The `runtime_map` table in `LambdaFunctionConstruct.__init__`. -/
def runtime_map : List (String × String) :=
  [ ("python3.13", "PYTHON_3_13"), ("python3.10", "PYTHON_3_10")
  , ("python3.9", "PYTHON_3_9"), ("python3.8", "PYTHON_3_8")
  , ("python3.7", "PYTHON_3_7") ]

/-- The synthesized default role: basic execution only, assumed by the
Lambda service principal, no inline policies. -/
def defaultLambdaRole (function_name : String) : Role :=
  { role_name := function_name ++ "-default-role"
  , assumed_by := TrustPolicy.servicePrincipal "lambda.amazonaws.com"
  , managed_policies := [ManagedPolicyRef.awsManaged "service-role/AWSLambdaBasicExecutionRole"]
  , inline_policies := [] }

/-- The role-resolution block of `LambdaFunctionConstruct.__init__`: only
attempted when a roles construct was passed and the declared role name is
truthy; first the construct's `roles` dictionary (itself only consulted when
non-empty), then `node.try_find_child` filtered to `iam.Role` children. -/
def resolveLambdaRole (iam_roles_construct : Option IamRolesState)
    (role_name : Option String) : Option Role :=
  match iam_roles_construct with
  | none => none
  | some rc =>
      if truthyStr role_name then
        let rn := role_name.getD ""
        let primary := if rc.roles.isEmpty then none else alookup rn rc.roles
        match primary with
        | some role => some role
        | none => alookup rn rc.children
      else none

/-- The code-path resolution of `LambdaFunctionConstruct.__init__`:
`zip_path` is joined to the project root when a truthy root was supplied and
the path is not absolute. -/
def resolveCodePath (project_root : Option String) (zip_path : String) : String :=
  if truthyStr project_root && !isAbs zip_path then
    pathJoin (project_root.getD "") zip_path
  else zip_path

/-- The per-record body of the loop in `LambdaFunctionConstruct.__init__`:
the created `(function_name, entity)` pair, or `none` when the record is
skipped, together with the diagnostics the iteration prints.  `pathExists`
models `os.path.exists`. -/
def processLambdaRecord (iam_roles_construct : Option IamRolesState)
    (project_root : Option String) (pathExists : String → Bool)
    (lambda_data : LambdaRecord) :
    Option (String × LambdaFunction) × List Diag :=
  let service := lambda_data.service.getD emptyService
  let function_name := service.function_name
  let role_name := service.role_name
  let handler := service.handler
  let runtime_str := service.runtime
  let zip_path := service.zip_file
  let timeout := service.timeout.getD 30
  let memory_size := service.memory_size.getD 128
  if !(truthyStr function_name && truthyStr handler && truthyStr runtime_str
        && truthyStr zip_path) then
    (none, [Diag.skipMissingFields function_name])
  else
    let fn := function_name.getD ""
    let (role, ds1) :=
      match resolveLambdaRole iam_roles_construct role_name with
      | some role => (role, ([] : List Diag))
      | none => (defaultLambdaRole fn, [Diag.roleNotFound role_name fn])
    let (runtime, ds2) :=
      match alookup (toLowerStr (runtime_str.getD "")) runtime_map with
      | some rt => (rt, ([] : List Diag))
      | none => ("PYTHON_3_13", [Diag.unsupportedRuntime (runtime_str.getD "") fn])
    let zp := zip_path.getD ""
    let code_path := resolveCodePath project_root zp
    if !pathExists code_path then
      (none, ds1 ++ ds2 ++ [Diag.codePathMissing code_path fn])
    else
      (some (fn,
        { function_name := fn
        , runtime := runtime
        , handler := handler.getD ""
        , code_path := code_path
        , role := role
        , timeout := timeout
        , memory_size := memory_size
        , environment := service.environment_variables
        , description := service.description.getD ("Lambda function " ++ fn) }),
       ds1 ++ ds2 ++ [Diag.createdFunction fn])

/-- The loop of `LambdaFunctionConstruct.__init__`: the accumulated
`lambda_functions` name→entity mapping and all diagnostics.  Every record is
attempted; a skipped record contributes no entry. -/
def lambdaFunctionsLoop (iam_roles_construct : Option IamRolesState)
    (project_root : Option String) (pathExists : String → Bool) :
    List LambdaRecord → List (String × LambdaFunction) × List Diag
  | [] => ([], [])
  | lambda_data :: rest =>
      let (entry, ds) := processLambdaRecord iam_roles_construct project_root pathExists lambda_data
      let (m, ds2) := lambdaFunctionsLoop iam_roles_construct project_root pathExists rest
      (match entry with
       | some e => e :: m
       | none => m, ds ++ ds2)

/-- `LambdaFunctionConstruct.__init__` over a batch of loaded records. -/
def LambdaFunctionConstruct (iam_roles_construct : Option IamRolesState)
    (project_root : Option String) (pathExists : String → Bool)
    (lambda_functions_config_files : List LambdaRecord) :
    List (String × LambdaFunction) × List Diag :=
  lambdaFunctionsLoop iam_roles_construct project_root pathExists lambda_functions_config_files

/-! ## constructs/api_gateway/http_api_gateway_construct.py -/

/-- One route's configuration inside a simple-routing (HTTP API) document.
The `lambda` field may hold arbitrary JSON (string form, object form, or
anything else); `authorization` maps an upper-case method to an authorizer
name. -/
structure HttpRouteConfig where
  resource_path : Option String
  methods : Option (List String)
  authorization : List (String × String)
  function_name : Option String
  lambda : Option Json
  url : Option String
deriving Repr

/-- A simple-routing (HTTP API) group document. -/
structure HttpApiConfig where
  name : String
  routes : List (String × HttpRouteConfig)
  integration_target : Option String
  url : Option String
  http_method : Option String
deriving Repr

/-- The integration target of a route: a function from the shared function
mapping (identified by its mapped value) or a raw external URL. -/
inductive IntegrationTarget where
  | lambdaTarget (fn : String)
  | httpTarget (url : String)
deriving Repr, DecidableEq

/-- Option 1 of `_determine_integration_target`: a Lambda function with the
same name as the route. -/
def integrationOption1 (lambda_map : List (String × String))
    (route_name : String) : Option IntegrationTarget :=
  (alookup route_name lambda_map).map IntegrationTarget.lambdaTarget

/-- Option 2: an explicit (truthy) `function_name` in the route config that
is present in the function mapping. -/
def integrationOption2 (lambda_map : List (String × String))
    (route_config : HttpRouteConfig) : Option IntegrationTarget :=
  match route_config.function_name with
  | some func_name =>
      if func_name = "" then none
      else (alookup func_name lambda_map).map IntegrationTarget.lambdaTarget
  | none => none

/-- Option 3: a truthy `lambda` field in the route config, either a bare
function name (string form) or an object carrying a `function_name` key. -/
def integrationOption3 (lambda_map : List (String × String))
    (route_config : HttpRouteConfig) : Option IntegrationTarget :=
  match route_config.lambda with
  | none => none
  | some lambda_config =>
      if !truthy (some lambda_config) then none
      else
        match lambda_config with
        | Json.str s => (alookup s lambda_map).map IntegrationTarget.lambdaTarget
        | Json.obj fields =>
            (match alookup "function_name" fields with
             | some (Json.str func_name) =>
                 if func_name = "" then none
                 else (alookup func_name lambda_map).map IntegrationTarget.lambdaTarget
             | _ => none)
        | _ => none

/-- Option 4: the group-wide external endpoint, used when the group's
`integration_target` equals `"HTTP URI"` and a truthy `url` is set. -/
def integrationOption4 (api_config : HttpApiConfig) : Option IntegrationTarget :=
  if api_config.integration_target = some "HTTP URI" then
    match api_config.url with
    | some u => if u = "" then none else some (IntegrationTarget.httpTarget u)
    | none => none
  else none

/-- Option 5: a route-specific truthy `url` field. -/
def integrationOption5 (route_config : HttpRouteConfig) : Option IntegrationTarget :=
  match route_config.url with
  | some u => if u = "" then none else some (IntegrationTarget.httpTarget u)
  | none => none

/-- `HttpApiGatewayConstruct._determine_integration_target`, transcribed
option by option; `lambda_map` maps function names to the function entities
(represented by an identifying string).  Each option is one sequential
`return` site of the Python method, and the result takes the first that
matches. -/
def determine_integration_target (lambda_map : List (String × String))
    (api_config : HttpApiConfig) (route_name : String)
    (route_config : HttpRouteConfig) : Option IntegrationTarget :=
  integrationOption1 lambda_map route_name
    <|> integrationOption2 lambda_map route_config
    <|> integrationOption3 lambda_map route_config
    <|> integrationOption4 api_config
    <|> integrationOption5 route_config

/-- One created `CfnRoute` of the HTTP API: the authorizer reference is the
`CfnAuthorizer.ref` (modelled as a number) resolved from the construct's
`authorizers` mapping, and the authorization type is `CUSTOM` exactly when
one was attached. -/
structure HttpRoute where
  route_name : String
  route_key : String
  target : IntegrationTarget
  authorizer_id : Option Nat
  authorization_type : String
deriving Repr, DecidableEq

/-- `HttpApiGatewayConstruct._setup_routes`: every route with a resolvable
integration target contributes one `CfnRoute` per declared method; a route
with no target is skipped (`continue`) and contributes nothing. -/
def setup_routes (authorizers : List (String × Nat))
    (lambda_map : List (String × String)) (api_config : HttpApiConfig) :
    List HttpRoute :=
  api_config.routes.flatMap (fun rentry =>
    let route_name := rentry.1
    let route_config := rentry.2
    let resource_path := route_config.resource_path.getD ("/" ++ route_name)
    let methods := route_config.methods.getD ["GET"]
    match determine_integration_target lambda_map api_config route_name route_config with
    | none => []
    | some tgt =>
        methods.map (fun m =>
          let method_upper := toUpperStr m
          let auth_name := alookup method_upper route_config.authorization
          let authorizer_id :=
            match auth_name with
            | some an => if an = "" then none else alookup an authorizers
            | none => none
          { route_name := route_name
          , route_key := method_upper ++ " " ++ resource_path
          , target := tgt
          , authorizer_id := authorizer_id
          , authorization_type := if authorizer_id.isSome then "CUSTOM" else "NONE" }))

/-! ## constructs/api_gateway/rest_api_gateway_construct.py -/

/-- One resource's configuration inside a REST route-group document. -/
structure RestResourceConfig where
  resource_path : Option String
  methods : List String
  authorization : List (String × String)
  require_api_key : List String
  cors_enabled : Bool
  function_name : Option String
deriving Repr

/-- Python `str.strip("/")`: drop leading and trailing separator characters. -/
def stripSlashes (s : String) : String :=
  String.mk (((s.toList.dropWhile (· = '/')).reverse.dropWhile (· = '/')).reverse)

/-- `resource_path.strip("/").split("/")` from
`RestApiGatewayConstruct._create_resources_and_methods`. -/
def splitPath (s : String) : List String :=
  splitSlashes (stripSlashes s).toList []

/-- One node of the REST path hierarchy: created by
`parent_resource.add_resource(part)`, identified by a fresh id, remembering
its path segment and its parent node (the API root is node 0). -/
structure ResourceNode where
  id : Nat
  path_part : String
  parent : Nat
deriving Repr, DecidableEq

/-- The resource-tree construction state threaded through
`_create_resources_and_methods`: the `created_resources` dictionary from
full path to node, all created nodes, and the next fresh node id. -/
structure ResTreeState where
  created_resources : List (String × Nat)
  nodes : List ResourceNode
  next_id : Nat
deriving Repr

/-- The initial state: an empty `created_resources` dictionary; ids start
after the root node 0. -/
def initResTree : ResTreeState :=
  { created_resources := [], nodes := [], next_id := 1 }

/-- The inner `for part in path_parts` loop: walk the declared path
left-to-right, skipping empty parts, reusing the node recorded in
`created_resources` for an already-seen path and otherwise creating a fresh
child of the current parent.  Returns the node for the full path and the
updated state. -/
def addResourcePath : List String → String → Nat → ResTreeState → Nat × ResTreeState
  | [], _current_path, parent, st => (parent, st)
  | part :: rest, current_path, parent, st =>
      if part = "" then addResourcePath rest current_path parent st
      else
        let cp := if current_path = "" then part else current_path ++ "/" ++ part
        match alookup cp st.created_resources with
        | some nid => addResourcePath rest cp nid st
        | none =>
            let nid := st.next_id
            let st2 : ResTreeState :=
              { created_resources := st.created_resources ++ [(cp, nid)]
              , nodes := st.nodes ++ [⟨nid, part, parent⟩]
              , next_id := nid + 1 }
            addResourcePath rest cp nid st2

/-- One method binding added by `resource.add_method`. -/
structure RestMethodBinding where
  resource : Nat
  http_method : String
  api_key_required : Bool
  authorization_type : String
  authorizer : Option String
deriving Repr, DecidableEq

/-- The per-resource body of the loop in `_create_resources_and_methods`:
build (or reuse) the path nodes, then — when the declared function resolves
in the shared function mapping — add one method binding per declared method,
skipping `OPTIONS`, resolving the per-method authorizer name against the
authorizer mapping and failing open to authorization type `NONE`. -/
def restResourceStep (lambda_map : List (String × String))
    (authorizer_map : List (String × String)) (st : ResTreeState)
    (resource_name : String) (cfg : RestResourceConfig) :
    ResTreeState × List RestMethodBinding :=
  let path_parts := splitPath (cfg.resource_path.getD ("/" ++ resource_name))
  let (node, st2) := addResourcePath path_parts "" 0 st
  match cfg.function_name.bind (fun n => alookup n lambda_map) with
  | none => (st2, [])
  | some _lambda_fn =>
      (st2, cfg.methods.filterMap (fun m =>
        let method_upper := toUpperStr m
        if method_upper = "OPTIONS" then none
        else
          let auth_name := alookup method_upper cfg.authorization
          let authorizer :=
            match auth_name with
            | some an => if an = "" then none else alookup an authorizer_map
            | none => none
          some { resource := node
               , http_method := method_upper
               , api_key_required := method_upper ∈ cfg.require_api_key
               , authorization_type := if authorizer.isSome then "CUSTOM" else "NONE"
               , authorizer := authorizer }))

/-- `RestApiGatewayConstruct._create_resources_and_methods` over the whole
`resources` dictionary of one route group, threading the shared
`created_resources` state across resources. -/
def create_resources_and_methods (lambda_map : List (String × String))
    (authorizer_map : List (String × String)) :
    List (String × RestResourceConfig) → ResTreeState →
      ResTreeState × List RestMethodBinding
  | [], st => (st, [])
  | (resource_name, cfg) :: rest, st =>
      let (st2, bs) := restResourceStep lambda_map authorizer_map st resource_name cfg
      let (st3, bs2) := create_resources_and_methods lambda_map authorizer_map rest st2
      (st3, bs ++ bs2)

/-! ## Specification-side definition of the integration-target order -/

/-- First-match-wins selection over an ordered candidate list. -/
def specFirstMatch : List (Option α) → Option α
  | [] => none
  | x :: xs =>
      match x with
      | some v => some v
      | none => specFirstMatch xs

/-- The integration-target resolution order as the specification words it
(first match wins): (1) a function whose name equals the route's own name;
(2) a function named by an explicit `function_name` field on the route;
(3) a function named inside a nested `lambda` field (string form or
`{function_name}` object form); (4) the group-wide external URL when the
group declares `integration_target` `"HTTP URI"` and a URL is set; (5) a
per-route external URL field.  An empty string does not name a function and
an empty URL field is not a set URL. -/
def specIntegrationOrder (lambda_map : List (String × String))
    (api_config : HttpApiConfig) (route_name : String)
    (route_config : HttpRouteConfig) : Option IntegrationTarget :=
  specFirstMatch
    [ (alookup route_name lambda_map).map IntegrationTarget.lambdaTarget
    , route_config.function_name.bind (fun n =>
        if n = "" then none
        else (alookup n lambda_map).map IntegrationTarget.lambdaTarget)
    , (match route_config.lambda with
       | some (Json.str s) =>
           if s = "" then none
           else (alookup s lambda_map).map IntegrationTarget.lambdaTarget
       | some (Json.obj fields) =>
           (match alookup "function_name" fields with
            | some (Json.str n) =>
                if n = "" then none
                else (alookup n lambda_map).map IntegrationTarget.lambdaTarget
            | _ => none)
       | _ => none)
    , (if api_config.integration_target = some "HTTP URI" then
         api_config.url.bind (fun u =>
           if u = "" then none else some (IntegrationTarget.httpTarget u))
       else none)
    , route_config.url.bind (fun u =>
        if u = "" then none else some (IntegrationTarget.httpTarget u)) ]

/-- A create-handler request body supplying all four required fields, with
`price` supplied as the number `0`. -/
def c9Body : List (String × Json) :=
  [ ("coffeeId", Json.str "c-1"), ("name", Json.str "Latte")
  , ("price", Json.num 0), ("available", Json.bool true) ]

/-- A create-handler request body passing the handler's validation. -/
def c9GoodBody : List (String × Json) :=
  [ ("coffeeId", Json.str "c-2"), ("name", Json.str "Mocha")
  , ("price", Json.num 4), ("available", Json.bool true) ]

/-- A concrete loader for exercising the config loader: fails on `b.json`,
succeeds elsewhere. -/
def wLoader : String → Except String String :=
  fun f => if f = "b.json" then Except.error "missing" else Except.ok f

/-- A concrete batch of configuration paths. -/
def wFiles : List String := ["a.json", "b.json", "c.json"]

/-- A concrete file system in which every directory exists. -/
def wDirExists : String → Bool := fun _ => true

/-- A concrete directory listing. -/
def wListDir : String → List String := fun _ => ["a.json", "c.json"]

/-- A function record whose `service` object omits the required `handler`
field. -/
def c7Record : LambdaRecord :=
  { service := some { emptyService with
      function_name := some "orders", runtime := some "python3.13"
    , zip_file := some "orders.zip" } }

/-- A REST resource with a resolvable function, a `GET` method and an
authorizer name absent from the authorizer mapping. -/
def c8RestCfg : RestResourceConfig :=
  { resource_path := some "/r", methods := ["GET"]
  , authorization := [("GET", "missing-auth")], require_api_key := []
  , cors_enabled := false, function_name := some "f" }

/-- A simple route with a `GET` method and an unresolvable authorizer
name. -/
def c8HttpRc : HttpRouteConfig :=
  { resource_path := none, methods := some ["GET"]
  , authorization := [("GET", "missing-auth")], function_name := none
  , lambda := none, url := none }

/-- A simple-routing group containing exactly the route `orders`. -/
def c8HttpApi : HttpApiConfig :=
  { name := "api", routes := [("orders", c8HttpRc)]
  , integration_target := none, url := none, http_method := none }

/-- A REST resource declaring the nested path `/a/b`. -/
def c5Cfg1 : RestResourceConfig :=
  { resource_path := some "/a/b", methods := [], authorization := []
  , require_api_key := [], cors_enabled := false, function_name := none }

/-- A REST resource declaring the nested path `/a/c`. -/
def c5Cfg2 : RestResourceConfig :=
  { resource_path := some "/a/c", methods := [], authorization := []
  , require_api_key := [], cors_enabled := false, function_name := none }

/-- A complete function service declaration whose `role_name` does not
resolve. -/
def c6Service : LambdaService :=
  { function_name := some "orders", role_name := some "missing-role"
  , handler := some "app.handler", runtime := some "python3.10"
  , zip_file := some "orders.zip", timeout := none, memory_size := none
  , environment_variables := [], description := none }

/-! ## Theorems -/

theorem not_validation_bool (a b c d : Bool) :
    (!a || !b || !c || d) = !(a && b && c && !d) := by
  cases a <;> cases b <;> cases c <;> cases d <;> rfl

theorem create_coffee_unparsed (fault : Option String) (table : List (Json × Json))
    (body : BodyField) (h : parsedBody body = none) :
    create_coffee fault table body = some (create_response 400 invalidJsonBody, table) := by
  unfold create_coffee
  rw [h]

theorem create_coffee_parsed (fault : Option String) (table : List (Json × Json))
    (body : BodyField) (bd : Json) (h : parsedBody body = some bd) :
    create_coffee fault table body = create_coffee fault table (some (some bd)) := by
  unfold create_coffee
  rw [h]
  rfl

theorem create_coffee_obj (fault : Option String) (table : List (Json × Json))
    (fields : List (String × Json)) :
    create_coffee fault table (some (some (Json.obj fields))) =
      (if passesValidation fields then
        (match put_item fault table ((alookup "coffeeId" fields).getD Json.null) (itemOf fields) with
         | .ok table2 => some (create_response 201 createdBody, table2)
         | .error code =>
             if code = "ConditionalCheckFailedException" then
               some (create_response 409 itemExistsBody, table)
             else some (create_response 500 (serverErrorBody code), table))
      else some (create_response 409 missingFieldsBody, table)) := by
  cases hp : passesValidation fields with
  | true =>
      unfold passesValidation at hp
      simp [create_coffee, parsedBody, not_validation_bool, hp]
  | false =>
      unfold passesValidation at hp
      simp [create_coffee, parsedBody, not_validation_bool, hp]

theorem loadLoop_spec (loader_func : String → Except String α) (files : List String) :
    loadLoop loader_func files =
      (files.filterMap (fun f => exceptToOption (loader_func f)),
       files.filter (loaderFails loader_func),
       files.map (fun f => if loaderFails loader_func f then Diag.loadError f else Diag.loaded f)) := by
  induction files with
  | nil => rfl
  | cons f rest ih =>
      cases h : loader_func f <;>
        simp [loadLoop, h, loaderFails, exceptToOption, ih]

/-- C2: the config loader attempts every path: the failed set is the filter
of the whole input list.  When no path fails, the full list of loaded
records is returned; when at least one fails, the batch result is the
aggregate error naming exactly the failed paths (no partial batch), and the
diagnostics contain, for every failed path, its resolved path and — when
its containing directory exists — that directory's listing. -/
theorem c2_config_loader_aggregate (loader_func : String → Except String α)
    (project_root : String) (dirExists : String → Bool) (listDir : String → List String)
    (config_files : List String) :
    (config_files.filter (loaderFails loader_func) = [] →
      (load_config_files loader_func project_root dirExists listDir config_files).1 =
        .ok (config_files.filterMap (fun f => exceptToOption (loader_func f))))
    ∧ (config_files.filter (loaderFails loader_func) ≠ [] →
        (load_config_files loader_func project_root dirExists listDir config_files).1 =
          .error (config_files.filter (loaderFails loader_func))
        ∧ ∀ f ∈ config_files.filter (loaderFails loader_func),
            Diag.expectedAt f (resolve_file_path f project_root) ∈
              (load_config_files loader_func project_root dirExists listDir config_files).2
            ∧ (dirExists (dirname (resolve_file_path f project_root)) = true →
                Diag.filesInDirectory (dirname (resolve_file_path f project_root))
                  (listDir (dirname (resolve_file_path f project_root))) ∈
                  (load_config_files loader_func project_root dirExists listDir config_files).2)) := by
  constructor
  · intro h
    unfold load_config_files
    rw [loadLoop_spec]
    simp [h]
  · intro h
    have hne : (config_files.filter (loaderFails loader_func)).isEmpty = false := by
      cases hc : config_files.filter (loaderFails loader_func) with
      | nil => exact absurd hc h
      | cons x xs => rfl
    have hout :
        load_config_files loader_func project_root dirExists listDir config_files =
          (.error (config_files.filter (loaderFails loader_func)),
           (config_files.map (fun f =>
              if loaderFails loader_func f then Diag.loadError f else Diag.loaded f))
             ++ [Diag.failedCount (config_files.filter (loaderFails loader_func)).length]
             ++ (config_files.filter (loaderFails loader_func)).flatMap (fun f =>
                  [Diag.failedFile f, Diag.expectedAt f (resolve_file_path f project_root)])
             ++ (config_files.filter (loaderFails loader_func)).flatMap (fun f =>
                  if dirExists (dirname (resolve_file_path f project_root)) then
                    [Diag.filesInDirectory (dirname (resolve_file_path f project_root))
                      (listDir (dirname (resolve_file_path f project_root)))]
                  else [])) := by
      unfold load_config_files
      rw [loadLoop_spec]
      simp [hne]
    rw [hout]
    refine ⟨rfl, ?_⟩
    intro f hf
    constructor
    · exact List.mem_append_left _
        (List.mem_append_right _ (List.mem_flatMap.mpr ⟨f, hf, by simp⟩))
    · intro hde
      exact List.mem_append_right _
        (List.mem_flatMap.mpr ⟨f, hf, by simp [hde]⟩)

/-- C2 witness: with one failing path among three, the batch raises the
aggregate error naming exactly that path and the diagnostics show its
resolved location and the containing directory's contents. -/
theorem c2_config_loader_aggregate_witness :
    (load_config_files wLoader "/root/proj" wDirExists wListDir wFiles).1 = .error ["b.json"]
    ∧ Diag.expectedAt "b.json" (resolve_file_path "b.json" "/root/proj") ∈
        (load_config_files wLoader "/root/proj" wDirExists wListDir wFiles).2
    ∧ Diag.filesInDirectory (dirname (resolve_file_path "b.json" "/root/proj"))
        (wListDir (dirname (resolve_file_path "b.json" "/root/proj"))) ∈
        (load_config_files wLoader "/root/proj" wDirExists wListDir wFiles).2 := by
  have h := (c2_config_loader_aggregate wLoader "/root/proj" wDirExists wListDir wFiles).2
    (by decide)
  have hm : "b.json" ∈ wFiles.filter (loaderFails wLoader) := by decide
  exact ⟨h.1, (h.2 "b.json" hm).1, (h.2 "b.json" hm).2 rfl⟩

/-- C10: a present but unparseable request body yields status 400 with a
JSON error body and leaves the backing table untouched, while an absent
body is parsed as the empty JSON object, fails the required-field check and
yields 409, also leaving the table untouched. -/
theorem c10_invalid_body_400_absent_body_409 (fault : Option String)
    (table : List (Json × Json)) :
    create_coffee fault table (some none) =
      some (create_response 400 (Json.obj [("error", Json.str "Invalid JSON in request body")]), table)
    ∧ create_coffee fault table none =
      some (create_response 409
        (Json.obj [("error", Json.str "Missing required attributes: coffeeId, name, price, or available.")]),
        table) :=
  ⟨rfl, rfl⟩

/-- C3 (code bug): evaluated at a role record that carries a structured
trust-policy document, the role construct still sets the trust policy to
the fixed `lambda.amazonaws.com` service principal — the document is
computed into the local `assume_role_policy` and never used. -/
theorem c3_trust_policy_document_ignored :
    buildIamRole
      { role_name := some "api-role"
      , trust_policy := some (Json.obj [("Version", Json.str "2012-10-17")])
      , managed_policies := []
      , inline_policies := [] } =
    .ok { role_name := "api-role"
        , assumed_by := TrustPolicy.servicePrincipal "lambda.amazonaws.com"
        , managed_policies := []
        , inline_policies := [] } := rfl

/-- C4 (code bug): a role batch whose first record fails construction
(missing `role_name`, raising `KeyError`) aborts as a whole with the
`TypeError` raised by the except-handler's own `id + 1` f-string; the
following valid record is never processed, contradicting log-and-continue. -/
theorem c4_one_failure_aborts_role_batch :
    IamRoleConstruct
      [ { role_name := none, trust_policy := none
        , managed_policies := [], inline_policies := [] }
      , { role_name := some "good-role", trust_policy := none
        , managed_policies := [], inline_policies := [] } ] =
    .error "TypeError: can only concatenate str (not \"int\") to str" := rfl

theorem lambdaFunctionsLoop_append (ir : Option IamRolesState) (root : Option String)
    (pex : String → Bool) (xs ys : List LambdaRecord) :
    lambdaFunctionsLoop ir root pex (xs ++ ys) =
      ((lambdaFunctionsLoop ir root pex xs).1 ++ (lambdaFunctionsLoop ir root pex ys).1,
       (lambdaFunctionsLoop ir root pex xs).2 ++ (lambdaFunctionsLoop ir root pex ys).2) := by
  induction xs with
  | nil => simp [lambdaFunctionsLoop]
  | cons x xs ih =>
      cases hp : processLambdaRecord ir root pex x with
      | mk entry ds => cases entry <;> simp [lambdaFunctionsLoop, hp, ih, List.append_assoc]

/-- C7: a function record whose service object omits any of the four
required fields (name, handler, runtime, code-artifact path) is skipped
with a diagnostic and contributes no entry to the output mapping; the
batch continues (the surrounding records resolve exactly as they would
without it) and nothing is raised. -/
theorem c7_missing_fields_skip (ir : Option IamRolesState) (root : Option String)
    (pex : String → Bool) (pre post : List LambdaRecord) (record : LambdaRecord)
    (h : (record.service.getD emptyService).function_name = none
       ∨ (record.service.getD emptyService).handler = none
       ∨ (record.service.getD emptyService).runtime = none
       ∨ (record.service.getD emptyService).zip_file = none) :
    processLambdaRecord ir root pex record =
      (none, [Diag.skipMissingFields (record.service.getD emptyService).function_name])
    ∧ (lambdaFunctionsLoop ir root pex (pre ++ record :: post)).1 =
      (lambdaFunctionsLoop ir root pex (pre ++ post)).1
    ∧ Diag.skipMissingFields (record.service.getD emptyService).function_name ∈
        (lambdaFunctionsLoop ir root pex (pre ++ record :: post)).2 := by
  have hskip : processLambdaRecord ir root pex record =
      (none, [Diag.skipMissingFields (record.service.getD emptyService).function_name]) := by
    rcases h with h | h | h | h <;> simp [processLambdaRecord, h, truthyStr]
  refine ⟨hskip, ?_, ?_⟩
  · rw [lambdaFunctionsLoop_append, lambdaFunctionsLoop_append ir root pex pre post]
    simp [lambdaFunctionsLoop, hskip]
  · rw [lambdaFunctionsLoop_append]
    refine List.mem_append_right _ ?_
    simp [lambdaFunctionsLoop, hskip]

/-- C7 witness: a record missing its handler is skipped with the
missing-fields diagnostic. -/
theorem c7_missing_fields_skip_witness :
    processLambdaRecord none none (fun _ => true) c7Record =
      (none, [Diag.skipMissingFields (c7Record.service.getD emptyService).function_name]) :=
  (c7_missing_fields_skip none none (fun _ => true) [] [] c7Record (Or.inr (Or.inl rfl))).1

/-- C6: a complete function record whose declared role name does not
resolve (or is absent) is still turned into a function entity, bound to the
synthesized default role, which grants exactly the basic-execution managed
policy and carries no inline policies and no other managed policies; the
record is not skipped, and the unresolved role is reported. -/
theorem c6_default_role_fallback (ir : Option IamRolesState) (root : Option String)
    (pex : String → Bool) (service : LambdaService) (fn hd rt zp : String)
    (hfn : service.function_name = some fn) (hfn2 : fn ≠ "")
    (hhd : service.handler = some hd) (hhd2 : hd ≠ "")
    (hrt : service.runtime = some rt) (hrt2 : rt ≠ "")
    (hzp : service.zip_file = some zp) (hzp2 : zp ≠ "")
    (hrole : resolveLambdaRole ir service.role_name = none)
    (hpath : pex (resolveCodePath root zp) = true) :
    ∃ f ds, processLambdaRecord ir root pex ⟨some service⟩ = (some (fn, f), ds)
      ∧ f.role = defaultLambdaRole fn
      ∧ (defaultLambdaRole fn).managed_policies =
          [ManagedPolicyRef.awsManaged "service-role/AWSLambdaBasicExecutionRole"]
      ∧ (defaultLambdaRole fn).inline_policies = []
      ∧ Diag.roleNotFound service.role_name fn ∈ ds := by
  cases hrm : alookup (toLowerStr rt) runtime_map with
  | some rtv =>
      refine ⟨{ function_name := fn, runtime := rtv, handler := hd
              , code_path := resolveCodePath root zp, role := defaultLambdaRole fn
              , timeout := service.timeout.getD 30, memory_size := service.memory_size.getD 128
              , environment := service.environment_variables
              , description := service.description.getD ("Lambda function " ++ fn) },
             [Diag.roleNotFound service.role_name fn, Diag.createdFunction fn],
             ?_, rfl, rfl, rfl, by simp⟩
      simp [processLambdaRecord, truthyStr, hfn, hhd, hrt, hzp, hfn2, hhd2, hrt2, hzp2,
        hrole, hrm, hpath]
  | none =>
      refine ⟨{ function_name := fn, runtime := "PYTHON_3_13", handler := hd
              , code_path := resolveCodePath root zp, role := defaultLambdaRole fn
              , timeout := service.timeout.getD 30, memory_size := service.memory_size.getD 128
              , environment := service.environment_variables
              , description := service.description.getD ("Lambda function " ++ fn) },
             [Diag.roleNotFound service.role_name fn, Diag.unsupportedRuntime rt fn,
              Diag.createdFunction fn],
             ?_, rfl, rfl, rfl, by simp⟩
      simp [processLambdaRecord, truthyStr, hfn, hhd, hrt, hzp, hfn2, hhd2, hrt2, hzp2,
        hrole, hrm, hpath]

/-- C6 witness: a complete record declaring the unresolvable role
`missing-role` is created with the synthesized default role. -/
theorem c6_default_role_fallback_witness :
    ∃ f ds, processLambdaRecord (some ⟨[], []⟩) (some "/proj") (fun _ => true)
        ⟨some c6Service⟩ = (some ("orders", f), ds)
      ∧ f.role = defaultLambdaRole "orders"
      ∧ (defaultLambdaRole "orders").managed_policies =
          [ManagedPolicyRef.awsManaged "service-role/AWSLambdaBasicExecutionRole"]
      ∧ (defaultLambdaRole "orders").inline_policies = []
      ∧ Diag.roleNotFound c6Service.role_name "orders" ∈ ds :=
  c6_default_role_fallback (some ⟨[], []⟩) (some "/proj") (fun _ => true) c6Service
    "orders" "app.handler" "python3.10" "orders.zip"
    rfl (by decide) rfl (by decide) rfl (by decide) rfl (by decide) rfl rfl

theorem string_data_append (a b : String) : (a ++ b).data = a.data ++ b.data := rfl

theorem string_eq_empty_of_data_eq_nil (b : String) (h : b.data = []) : b = "" := by
  cases b with
  | mk l =>
      simp only at h
      subst h
      rfl

theorem string_append_sep_ne (a b : String) : a ++ "/" ++ b ≠ a := by
  intro h
  have hd := congrArg (fun s => s.data.length) h
  have h1 : ("/" : String).data.length = 1 := rfl
  simp only [string_data_append, List.length_append, h1] at hd
  omega

theorem string_append_right_inj (a b c : String) (h : a ++ b = a ++ c) : b = c := by
  have hd : a.data ++ b.data = a.data ++ c.data := by
    rw [← string_data_append, ← string_data_append, h]
  have hbc := List.append_cancel_left hd
  exact String.toList_inj.mp hbc

theorem alookup_eq_none_iff (k : String) (l : List (String × α)) :
    alookup k l = none ↔ k ∉ l.map Prod.fst := by
  induction l with
  | nil => simp [alookup]
  | cons p t ih =>
      cases p with
      | mk k1 v => by_cases hk : k = k1 <;> simp [alookup, hk, ih]

theorem addResourcePath_preserves_nodup (parts : List String) (cur : String)
    (parent : Nat) (st : ResTreeState)
    (h : (st.created_resources.map Prod.fst).Nodup) :
    ((addResourcePath parts cur parent st).2.created_resources.map Prod.fst).Nodup := by
  induction parts generalizing cur parent st with
  | nil => simpa [addResourcePath] using h
  | cons part rest ih =>
      by_cases hp : part = ""
      · simp only [addResourcePath, if_pos hp]
        exact ih _ _ _ h
      · cases hl : alookup (if cur = "" then part else cur ++ "/" ++ part)
            st.created_resources with
        | some nid =>
            simp only [addResourcePath, if_neg hp, hl]
            exact ih _ _ _ h
        | none =>
            simp only [addResourcePath, if_neg hp, hl]
            apply ih
            have hnotin := (alookup_eq_none_iff _ _).mp hl
            simp [List.nodup_append, h, hnotin]

theorem restResourceStep_fst (lambda_map authorizer_map : List (String × String))
    (st : ResTreeState) (resource_name : String) (cfg : RestResourceConfig) :
    (restResourceStep lambda_map authorizer_map st resource_name cfg).1 =
      (addResourcePath (splitPath (cfg.resource_path.getD ("/" ++ resource_name))) "" 0 st).2 := by
  unfold restResourceStep
  cases haf : cfg.function_name.bind (fun n => alookup n lambda_map) <;> simp [haf]

theorem create_resources_cons (lm am : List (String × String)) (name : String)
    (cfg : RestResourceConfig) (rest : List (String × RestResourceConfig)) (st : ResTreeState) :
    create_resources_and_methods lm am ((name, cfg) :: rest) st =
      ((create_resources_and_methods lm am rest (restResourceStep lm am st name cfg).1).1,
       (restResourceStep lm am st name cfg).2 ++
         (create_resources_and_methods lm am rest (restResourceStep lm am st name cfg).1).2) := by
  cases hs : restResourceStep lm am st name cfg with
  | mk st2 bs =>
      cases hr : create_resources_and_methods lm am rest st2 with
      | mk st3 bs2 => simp [create_resources_and_methods, hs, hr]

theorem create_resources_preserves_nodup (lm am : List (String × String))
    (cfgs : List (String × RestResourceConfig)) (st : ResTreeState)
    (h : (st.created_resources.map Prod.fst).Nodup) :
    ((create_resources_and_methods lm am cfgs st).1.created_resources.map Prod.fst).Nodup := by
  induction cfgs generalizing st with
  | nil => simpa [create_resources_and_methods] using h
  | cons p rest ih =>
      cases p with
      | mk name cfg =>
          rw [create_resources_cons]
          exact ih _ (by
            rw [restResourceStep_fst]
            exact addResourcePath_preserves_nodup _ _ _ _ h)

/-- C5: building the path hierarchy for two resources declaring paths that
split into `[a, b]` and `[a, c]` yields exactly three nodes: one shared node
for the common prefix segment `a` (node 1, counted exactly once in the
dictionary of created paths) and two distinct child nodes for `b` and `c`
(nodes 2 and 3, both children of node 1); and in general no batch ever
records two nodes for the same path (the created-path keys are always
without duplicates). -/
theorem c5_path_dedup (lm am : List (String × String)) (n1 n2 : String)
    (cfg1 cfg2 : RestResourceConfig) (p1 p2 a b c : String)
    (h1 : cfg1.resource_path = some p1) (h2 : cfg2.resource_path = some p2)
    (hs1 : splitPath p1 = [a, b]) (hs2 : splitPath p2 = [a, c])
    (ha : a ≠ "") (hb : b ≠ "") (hc : c ≠ "") (hbc : b ≠ c) :
    ((create_resources_and_methods lm am [(n1, cfg1), (n2, cfg2)] initResTree).1.created_resources
        = [(a, 1), (a ++ "/" ++ b, 2), (a ++ "/" ++ c, 3)])
    ∧ ((create_resources_and_methods lm am [(n1, cfg1), (n2, cfg2)] initResTree).1.nodes
        = [⟨1, a, 0⟩, ⟨2, b, 1⟩, ⟨3, c, 1⟩])
    ∧ (((create_resources_and_methods lm am [(n1, cfg1), (n2, cfg2)] initResTree).1.created_resources.map
          Prod.fst).count a = 1)
    ∧ (∀ (lm2 am2 : List (String × String)) (cfgs : List (String × RestResourceConfig)),
        ((create_resources_and_methods lm2 am2 cfgs initResTree).1.created_resources.map
            Prod.fst).Nodup) := by
  have hab_ne : a ++ "/" ++ b ≠ a := string_append_sep_ne a b
  have hac_ne : a ++ "/" ++ c ≠ a := string_append_sep_ne a c
  have hacab : a ++ "/" ++ c ≠ a ++ "/" ++ b := fun h =>
    hbc ((string_append_right_inj (a ++ "/") c b h).symm)
  have hwalk1 : addResourcePath [a, b] "" 0 initResTree =
      (2, { created_resources := [(a, 1), (a ++ "/" ++ b, 2)]
          , nodes := [⟨1, a, 0⟩, ⟨2, b, 1⟩], next_id := 3 }) := by
    simp [addResourcePath, initResTree, alookup, ha, hb, hab_ne]
  have hwalk2 : addResourcePath [a, c] "" 0
      { created_resources := [(a, 1), (a ++ "/" ++ b, 2)]
      , nodes := [⟨1, a, 0⟩, ⟨2, b, 1⟩], next_id := 3 } =
      (3, { created_resources := [(a, 1), (a ++ "/" ++ b, 2), (a ++ "/" ++ c, 3)]
          , nodes := [⟨1, a, 0⟩, ⟨2, b, 1⟩, ⟨3, c, 1⟩], next_id := 4 }) := by
    simp [addResourcePath, alookup, ha, hc, hac_ne, hacab]
  have hfin : (create_resources_and_methods lm am [(n1, cfg1), (n2, cfg2)] initResTree).1 =
      { created_resources := [(a, 1), (a ++ "/" ++ b, 2), (a ++ "/" ++ c, 3)]
      , nodes := [⟨1, a, 0⟩, ⟨2, b, 1⟩, ⟨3, c, 1⟩], next_id := 4 } := by
    rw [create_resources_cons, create_resources_cons]
    simp only [create_resources_and_methods]
    rw [restResourceStep_fst, restResourceStep_fst, h1]
    simp only [Option.getD_some]
    rw [hs1, hwalk1, h2]
    simp only [Option.getD_some]
    rw [hs2, hwalk2]
  refine ⟨by rw [hfin], by rw [hfin], ?_, ?_⟩
  · rw [hfin]
    simp [List.count_cons, hab_ne, hac_ne]
  · intro lm2 am2 cfgs
    exact create_resources_preserves_nodup lm2 am2 cfgs initResTree (by simp [initResTree])

/-- C5 witness: the resources `/a/b` and `/a/c` produce one `a` node and
two distinct children. -/
theorem c5_path_dedup_witness :
    ((create_resources_and_methods [] [] [("r1", c5Cfg1), ("r2", c5Cfg2)] initResTree).1.created_resources
        = [("a", 1), ("a" ++ "/" ++ "b", 2), ("a" ++ "/" ++ "c", 3)])
    ∧ ((create_resources_and_methods [] [] [("r1", c5Cfg1), ("r2", c5Cfg2)] initResTree).1.nodes
        = [⟨1, "a", 0⟩, ⟨2, "b", 1⟩, ⟨3, "c", 1⟩])
    ∧ (((create_resources_and_methods [] [] [("r1", c5Cfg1), ("r2", c5Cfg2)] initResTree).1.created_resources.map
          Prod.fst).count "a" = 1)
    ∧ (∀ (lm2 am2 : List (String × String)) (cfgs : List (String × RestResourceConfig)),
        ((create_resources_and_methods lm2 am2 cfgs initResTree).1.created_resources.map
            Prod.fst).Nodup) :=
  c5_path_dedup [] [] "r1" "r2" c5Cfg1 c5Cfg2 "/a/b" "/a/c" "a" "b" "c"
    rfl rfl (by decide) (by decide) (by decide) (by decide) (by decide) (by decide)

theorem specFirstMatch_cons (x : Option α) (xs : List (Option α)) :
    specFirstMatch (x :: xs) = (x <|> specFirstMatch xs) := by
  cases x <;> rfl

theorem integrationOption2_eq_spec (lm : List (String × String)) (rc : HttpRouteConfig) :
    integrationOption2 lm rc =
      rc.function_name.bind (fun n =>
        if n = "" then none
        else (alookup n lm).map IntegrationTarget.lambdaTarget) := by
  cases h : rc.function_name <;> simp [integrationOption2, h]

theorem integrationOption3_eq_spec (lm : List (String × String)) (rc : HttpRouteConfig) :
    integrationOption3 lm rc =
      (match rc.lambda with
       | some (Json.str s) =>
           if s = "" then none
           else (alookup s lm).map IntegrationTarget.lambdaTarget
       | some (Json.obj fields) =>
           (match alookup "function_name" fields with
            | some (Json.str n) =>
                if n = "" then none
                else (alookup n lm).map IntegrationTarget.lambdaTarget
            | _ => none)
       | _ => none) := by
  cases hl : rc.lambda with
  | none => simp [integrationOption3, hl]
  | some lc =>
      cases lc with
      | null => simp [integrationOption3, hl, truthy]
      | bool b => cases b <;> simp [integrationOption3, hl, truthy]
      | num n => simp [integrationOption3, hl, truthy, ite_self]
      | str s =>
          by_cases hs : s = "" <;> simp [integrationOption3, hl, truthy, hs]
      | arr xs => simp [integrationOption3, hl, truthy, ite_self]
      | obj fields =>
          cases fields with
          | nil => simp [integrationOption3, hl, truthy, alookup]
          | cons p t => simp [integrationOption3, hl, truthy]

theorem integrationOption4_eq_spec (api : HttpApiConfig) :
    integrationOption4 api =
      (if api.integration_target = some "HTTP URI" then
         api.url.bind (fun u =>
           if u = "" then none else some (IntegrationTarget.httpTarget u))
       else none) := by
  by_cases hit : api.integration_target = some "HTTP URI"
  · cases hu : api.url <;> simp [integrationOption4, hit, hu]
  · simp [integrationOption4, hit]

theorem integrationOption5_eq_spec (rc : HttpRouteConfig) :
    integrationOption5 rc =
      rc.url.bind (fun u =>
        if u = "" then none else some (IntegrationTarget.httpTarget u)) := by
  cases hu : rc.url <;> simp [integrationOption5, hu]

/-- C1: the integration-target resolver implements exactly the documented
five-step first-match order; in particular a function named like the route
always wins (even over an explicit `function_name` field); and a route
whose resolver returns nothing is skipped, contributing no binding to the
produced route set. -/
theorem c1_integration_resolution_order :
    (∀ (lm : List (String × String)) (api : HttpApiConfig) (rn : String)
        (rc : HttpRouteConfig),
        determine_integration_target lm api rn rc = specIntegrationOrder lm api rn rc)
    ∧ (∀ (lm : List (String × String)) (api : HttpApiConfig) (rn : String)
        (rc : HttpRouteConfig) (fn : String), alookup rn lm = some fn →
          determine_integration_target lm api rn rc =
            some (IntegrationTarget.lambdaTarget fn))
    ∧ (∀ (auths : List (String × Nat)) (lm : List (String × String))
        (api : HttpApiConfig) (rn : String) (rc : HttpRouteConfig)
        (pre post : List (String × HttpRouteConfig)),
          api.routes = pre ++ (rn, rc) :: post →
          determine_integration_target lm api rn rc = none →
          setup_routes auths lm api =
            setup_routes auths lm { api with routes := pre ++ post }) := by
  refine ⟨?_, ?_, ?_⟩
  · intro lm api rn rc
    unfold determine_integration_target specIntegrationOrder
    rw [specFirstMatch_cons, specFirstMatch_cons, specFirstMatch_cons,
      specFirstMatch_cons, specFirstMatch_cons]
    rw [show specFirstMatch ([] : List (Option IntegrationTarget)) = none from rfl]
    rw [Option.orElse_none]
    rw [← integrationOption2_eq_spec lm rc, ← integrationOption3_eq_spec lm rc,
      ← integrationOption4_eq_spec api, ← integrationOption5_eq_spec rc]
    rfl
  · intro lm api rn rc fn h
    unfold determine_integration_target integrationOption1
    rw [h]
    rfl
  · intro auths lm api rn rc pre post hroutes hdet
    unfold setup_routes
    rw [hroutes]
    simp only [List.flatMap_append, List.flatMap_cons]
    simp [hdet]
    rfl

/-- C1 witness: a route named `orders`, with a function `orders` in the
mapping and an explicit `function_name` pointing at the (also existing)
function `other`, binds to the function named `orders`. -/
theorem c1_integration_resolution_order_witness :
    determine_integration_target [("orders", "fn-orders"), ("other", "fn-other")]
      { name := "api", routes := [], integration_target := none, url := none
      , http_method := none }
      "orders"
      { resource_path := none, methods := none, authorization := []
      , function_name := some "other", lambda := none, url := none } =
      some (IntegrationTarget.lambdaTarget "fn-orders") :=
  c1_integration_resolution_order.2.1 _ _ _ _ _ (by decide)

/-- C8 counterexample: in the REST variant, a resource whose backing
function resolves, declaring the single method `OPTIONS` with an authorizer
name absent from the (empty) authorizer mapping, produces no method binding
at all — `OPTIONS` is skipped — refuting the claim that the binding is
still created with authorization type NONE. -/
theorem c8_counterexample_options_method_skipped :
    (restResourceStep [("f", "fn-f")] [] initResTree "r"
      { resource_path := some "/r", methods := ["OPTIONS"]
      , authorization := [("OPTIONS", "missing-auth")]
      , require_api_key := [], cors_enabled := false
      , function_name := some "f" }).2 = [] := rfl

/-- C8 (amended): in both route-resolver variants, for a route whose
integration target (simple variant) or backing function (REST variant)
resolves, every declared method — other than methods spelled `OPTIONS` in
the REST variant, which are always skipped in favour of the CORS preflight
configuration — whose named authorizer is not present in the
successfully-created authorizer mapping still gets its binding, created
with authorization type `NONE` and no authorizer attached. -/
theorem c8_amended_authorizer_fail_open :
    (∀ (lm am : List (String × String)) (st : ResTreeState) (name : String)
        (cfg : RestResourceConfig) (m fname fnv an : String),
        cfg.function_name = some fname → alookup fname lm = some fnv →
        m ∈ cfg.methods → toUpperStr m ≠ "OPTIONS" →
        alookup (toUpperStr m) cfg.authorization = some an → an ≠ "" →
        alookup an am = none →
        ({ resource := (addResourcePath (splitPath (cfg.resource_path.getD ("/" ++ name))) "" 0 st).1
         , http_method := toUpperStr m
         , api_key_required := toUpperStr m ∈ cfg.require_api_key
         , authorization_type := "NONE"
         , authorizer := none } : RestMethodBinding) ∈
          (restResourceStep lm am st name cfg).2)
    ∧ (∀ (auths : List (String × Nat)) (lm : List (String × String))
        (api : HttpApiConfig) (rn : String) (rc : HttpRouteConfig)
        (m an : String) (tgt : IntegrationTarget),
        (rn, rc) ∈ api.routes →
        determine_integration_target lm api rn rc = some tgt →
        m ∈ rc.methods.getD ["GET"] →
        alookup (toUpperStr m) rc.authorization = some an → an ≠ "" →
        alookup an auths = none →
        ({ route_name := rn
         , route_key := toUpperStr m ++ " " ++ rc.resource_path.getD ("/" ++ rn)
         , target := tgt
         , authorizer_id := none
         , authorization_type := "NONE" } : HttpRoute) ∈ setup_routes auths lm api) := by
  constructor
  · intro lm am st name cfg m fname fnv an hfn hlm hm hopt han hanne ham
    have hb : cfg.function_name.bind (fun n => alookup n lm) = some fnv := by
      simp [hfn, hlm]
    unfold restResourceStep
    simp only [hb]
    refine List.mem_filterMap.mpr ⟨m, hm, ?_⟩
    simp [hopt, han, hanne, ham]
  · intro auths lm api rn rc m an tgt hmem hdet hm han hanne ham
    unfold setup_routes
    refine List.mem_flatMap.mpr ⟨(rn, rc), hmem, ?_⟩
    simp only [hdet]
    refine List.mem_map.mpr ⟨m, hm, ?_⟩
    simp [han, hanne, ham]

/-- C8 amended witness: in both variants, a concrete `GET` method whose
authorizer name resolves to nothing is bound with authorization type
`NONE`. -/
theorem c8_amended_authorizer_fail_open_witness :
    (({ resource := (addResourcePath (splitPath (c8RestCfg.resource_path.getD ("/" ++ "r"))) "" 0 initResTree).1
      , http_method := toUpperStr "GET"
      , api_key_required := toUpperStr "GET" ∈ c8RestCfg.require_api_key
      , authorization_type := "NONE"
      , authorizer := none } : RestMethodBinding) ∈
        (restResourceStep [("f", "fn-f")] [] initResTree "r" c8RestCfg).2)
    ∧ (({ route_name := "orders"
        , route_key := toUpperStr "GET" ++ " " ++ c8HttpRc.resource_path.getD ("/" ++ "orders")
        , target := IntegrationTarget.lambdaTarget "fn-orders"
        , authorizer_id := none
        , authorization_type := "NONE" } : HttpRoute) ∈
          setup_routes [] [("orders", "fn-orders")] c8HttpApi) :=
  ⟨c8_amended_authorizer_fail_open.1 [("f", "fn-f")] [] initResTree "r" c8RestCfg
      "GET" "f" "fn-f" "missing-auth" rfl rfl (by decide) (by decide) (by decide)
      (by decide) rfl,
   c8_amended_authorizer_fail_open.2 [] [("orders", "fn-orders")] c8HttpApi
      "orders" c8HttpRc "GET" "missing-auth" (IntegrationTarget.lambdaTarget "fn-orders")
      (by simp [c8HttpApi]) (by decide) (by decide) (by decide) (by decide) rfl⟩

/-- C9 (amended): the create handler answers 201 exactly when the body
parses to an object whose `coffeeId`, `name` and `price` are supplied with
truthy values, `available` is supplied non-null, and the identifier is not
already in the table (healthy backend); it answers 409 when that validation
fails or the identifier already exists (including a backend
conditional-check failure); it answers 500 on every other backend client
error; and every response it returns carries the JSON content-type header
and a JSON-string body. -/
theorem c9_amended_create_statuses (fault : Option String)
    (table : List (Json × Json)) (body : BodyField) :
    (∀ r t2, create_coffee fault table body = some (r, t2) →
        r.headers = [("Content-Type", "application/json")] ∧ ∃ j, r.body = Json.serialize j)
    ∧ (fault = none →
        ((∃ r t2, create_coffee fault table body = some (r, t2) ∧ r.statusCode = 201) ↔
          (∃ fields, parsedBody body = some (Json.obj fields) ∧ passesValidation fields = true ∧
            (table.find? (fun p =>
              Json.beq p.1 ((alookup "coffeeId" fields).getD Json.null))).isSome = false)))
    ∧ (∀ fields, parsedBody body = some (Json.obj fields) →
        (passesValidation fields = false ∨
          (fault = none ∧ (table.find? (fun p =>
            Json.beq p.1 ((alookup "coffeeId" fields).getD Json.null))).isSome = true) ∨
          (fault = some "ConditionalCheckFailedException" ∧ passesValidation fields = true)) →
        (create_coffee fault table body).map (fun r => r.1.statusCode) = some 409)
    ∧ (∀ code fields, fault = some code → code ≠ "ConditionalCheckFailedException" →
        parsedBody body = some (Json.obj fields) → passesValidation fields = true →
        (create_coffee fault table body).map (fun r => r.1.statusCode) = some 500) := by
  refine ⟨?_, ?_, ?_, ?_⟩
  · intro r t2 h
    rcases hpb : parsedBody body with _ | bd
    · rw [create_coffee_unparsed fault table body hpb] at h
      obtain ⟨rfl, rfl⟩ : create_response 400 invalidJsonBody = r ∧ table = t2 := by
        simpa using h
      exact ⟨rfl, invalidJsonBody, rfl⟩
    · rw [create_coffee_parsed fault table body bd hpb] at h
      cases bd with
      | obj fields =>
          rw [create_coffee_obj] at h
          cases hv : passesValidation fields with
          | false =>
              rw [hv] at h
              obtain ⟨rfl, rfl⟩ : create_response 409 missingFieldsBody = r ∧ table = t2 := by
                simpa using h
              exact ⟨rfl, missingFieldsBody, rfl⟩
          | true =>
              rw [hv] at h
              simp only [if_true] at h
              rcases hput : put_item fault table ((alookup "coffeeId" fields).getD Json.null)
                  (itemOf fields) with code | t3 <;> rw [hput] at h
              · by_cases hc : code = "ConditionalCheckFailedException"
                · obtain ⟨rfl, rfl⟩ : create_response 409 itemExistsBody = r ∧ table = t2 := by
                    simpa [hc] using h
                  exact ⟨rfl, itemExistsBody, rfl⟩
                · obtain ⟨rfl, rfl⟩ : create_response 500 (serverErrorBody code) = r ∧ table = t2 := by
                    simpa [hc] using h
                  exact ⟨rfl, serverErrorBody code, rfl⟩
              · obtain ⟨rfl, rfl⟩ : create_response 201 createdBody = r ∧ t3 = t2 := by
                  simpa using h
                exact ⟨rfl, createdBody, rfl⟩
      | null => simp [create_coffee, parsedBody] at h
      | bool b => simp [create_coffee, parsedBody] at h
      | num n => simp [create_coffee, parsedBody] at h
      | str s => simp [create_coffee, parsedBody] at h
      | arr xs => simp [create_coffee, parsedBody] at h
  · rintro rfl
    constructor
    · rintro ⟨r, t2, h, hs⟩
      rcases hpb : parsedBody body with _ | bd
      · rw [create_coffee_unparsed none table body hpb] at h
        obtain ⟨rfl, rfl⟩ : create_response 400 invalidJsonBody = r ∧ table = t2 := by
          simpa using h
        simp [create_response] at hs
      · rw [create_coffee_parsed none table body bd hpb] at h
        cases bd with
        | obj fields =>
            rw [create_coffee_obj] at h
            cases hv : passesValidation fields with
            | false =>
                rw [hv] at h
                obtain ⟨rfl, rfl⟩ : create_response 409 missingFieldsBody = r ∧ table = t2 := by
                  simpa using h
                simp [create_response] at hs
            | true =>
                rw [hv] at h
                simp only [if_true] at h
                cases hf : (table.find? (fun p =>
                    Json.beq p.1 ((alookup "coffeeId" fields).getD Json.null))).isSome with
                | true =>
                    rw [put_item, if_pos hf] at h
                    simp only [if_pos rfl] at h
                    obtain ⟨rfl, rfl⟩ : create_response 409 itemExistsBody = r ∧ table = t2 := by
                      simpa using h
                    simp [create_response] at hs
                | false =>
                    exact ⟨fields, rfl, hv, hf⟩
        | null => simp [create_coffee, parsedBody] at h
        | bool b => simp [create_coffee, parsedBody] at h
        | num n => simp [create_coffee, parsedBody] at h
        | str s => simp [create_coffee, parsedBody] at h
        | arr xs => simp [create_coffee, parsedBody] at h
    · rintro ⟨fields, hpb, hv, hf⟩
      refine ⟨create_response 201 createdBody,
        (((alookup "coffeeId" fields).getD Json.null, itemOf fields) :: table), ?_, rfl⟩
      rw [create_coffee_parsed none table body _ hpb, create_coffee_obj, hv]
      simp only [if_true]
      rw [put_item, if_neg (by simp [hf])]
  · intro fields hpb hcase
    rw [create_coffee_parsed fault table body _ hpb, create_coffee_obj]
    rcases hcase with hv | ⟨hfault, hf⟩ | ⟨hfault, hv⟩
    · rw [hv]
      simp [create_response]
    · subst hfault
      rcases hv : passesValidation fields with _ | _
      · simp [create_response]
      · simp only [hv, if_true]
        rw [put_item, if_pos hf]
        simp [create_response]
    · subst hfault
      rw [hv]
      simp [put_item, create_response]
  · intro code fields hfault hcode hpb hv
    subst hfault
    rw [create_coffee_parsed (some code) table body _ hpb, create_coffee_obj, hv]
    simp [put_item, if_neg hcode, create_response]

/-- C9 witness: a valid body against an empty table yields a 201 response. -/
theorem c9_amended_create_statuses_witness :
    ∃ r t2, create_coffee none [] (some (some (Json.obj c9GoodBody))) = some (r, t2)
      ∧ r.statusCode = 201 :=
  ((c9_amended_create_statuses none [] (some (some (Json.obj c9GoodBody)))).2.1 rfl).mpr
    ⟨c9GoodBody, rfl, rfl, rfl⟩

/-- C9 counterexample: a request body supplying all four required fields
(with `price` supplied as `0`) against an empty table and a healthy backend
is answered with 409, not 201 — the handler tests Python truthiness, not
presence, so a supplied zero price is treated as missing. -/
theorem c9_counterexample_price_zero :
    requiredFieldsSupplied c9Body = true
    ∧ (([] : List (Json × Json)).find? (fun p => Json.beq p.1 (Json.str "c-1"))).isSome = false
    ∧ (create_coffee none [] (some (some (Json.obj c9Body)))).map
        (fun r => r.1.statusCode) = some 409 :=
  ⟨rfl, rfl, rfl⟩

end InfraSetup
